import Mathlib

/-
Verification of the WebGL fluid-simulation module (src/js/fluid.js).

The development shallowly embeds the parts of the module that the spec
talks about.  GPU float arithmetic is modelled over the rationals (exact
arithmetic) except where a transcendental function appears (the splat
kernel uses the real exponential); texture fetches are modelled at the
texel level with the NEAREST / CLAMP_TO_EDGE addressing the module uses
for the relevant targets.  Every pass is a pure function from the grids
it reads to the grid it writes, and the double-buffered render targets
are explicit read/write pairs with a swap operation.
-/

set_option autoImplicit false

namespace Fluid

/-! ## Configuration constants (the `config` literal of fluid.js) -/

def SIM_RESOLUTION : ℚ := 128
def DYE_RESOLUTION : ℚ := 1024
def DENSITY_DISSIPATION : ℚ := 1.5
def VELOCITY_DISSIPATION : ℚ := 0.6
def PRESSURE : ℚ := 0.8
def PRESSURE_ITERATIONS : ℕ := 20
def CURL : ℚ := 30
def SPLAT_RADIUS : ℚ := 0.3
def SPLAT_FORCE : ℚ := 6000
def COLOR_UPDATE_SPEED : ℚ := 10

/-- The five-entry accent palette (`PALETTE` in fluid.js), as (r, g, b). -/
def PALETTE : List (ℚ × ℚ × ℚ) :=
  [(0, 0.91, 0.43), (0, 0.7, 0.35), (0, 0.55, 0.28), (0.08, 0.95, 0.55), (0, 0.4, 0.2)]

/-- Model of `getRandomColor`: `PALETTE[Math.floor(t * PALETTE.length)]`
with every channel scaled by `0.25`, where `t` is the `Math.random()`
draw (a value in `[0, 1)`). -/
def getRandomColor (t : ℚ) : ℚ × ℚ × ℚ :=
  let c := PALETTE.getD (Int.toNat ⌊t * (PALETTE.length : ℚ)⌋) (0, 0, 0)
  (c.1 * 0.25, c.2.1 * 0.25, c.2.2 * 0.25)

/-! ## Texture sampling

A texture of logical size `w × h` is a function from texel indices to
values.  `texIndex` maps a texture coordinate in `[0,1]` to the texel a
NEAREST / CLAMP_TO_EDGE fetch reads: the floor of `u * n`, clamped into
`[0, n-1]`.  All grids sampled by the passes below are either allocated
with NEAREST filtering or sampled exactly at texel centers, where LINEAR
filtering returns the same value. -/

/-- Texel index hit by a NEAREST fetch with CLAMP_TO_EDGE at coordinate `u`. -/
def texIndex (n : ℕ) (u : ℚ) : ℕ :=
  min (n - 1) (Int.toNat ⌊u * (n : ℚ)⌋)

/-- Point-sample a `w × h` grid at texture coordinate `(u, v)`. -/
def sampleNearest {α : Type} (g : ℕ → ℕ → α) (w h : ℕ) (u v : ℚ) : α :=
  g (texIndex w u) (texIndex h v)

/-- Texture coordinate of the center of texel `i` on an axis of `n` texels
(the `vUv` varying produced by the base vertex shader for that texel). -/
def vUvX (n i : ℕ) : ℚ := ((i : ℚ) + 1/2) / (n : ℚ)

/-! ## Capability negotiator (`getSupportedFormat`, `getWebGLContext`) -/

/-- Internal texture formats the module requests (`gl.R16F`, `gl.RG16F`,
`gl.RGBA16F` on WebGL2; unsized `gl.RGBA` on WebGL1). -/
inductive InternalFormat
  | R16F
  | RG16F
  | RGBA16F
  | RGBA
deriving DecidableEq, Repr

/-- Client formats paired with the internal formats. -/
inductive ClientFormat
  | RED
  | RG
  | RGBA
deriving DecidableEq, Repr

/-- Measure for the escalation recursion of `getSupportedFormat`. -/
def formatRank : InternalFormat → ℕ
  | .R16F => 2
  | .RG16F => 1
  | _ => 0

/-- Model of `getSupportedFormat`: `support` abstracts the render-target
probe `supportRenderTextureFormat`.  A failed probe escalates `R16F` to
`RG16F` and `RG16F` to `RGBA16F`; any other failed format yields `null`
(the `default` branch of the switch); a successful probe returns the
requested pair. -/
def getSupportedFormat (support : InternalFormat → ClientFormat → Bool) :
    InternalFormat → ClientFormat → Option (InternalFormat × ClientFormat) :=
  fun internalFormat format =>
    if support internalFormat format then some (internalFormat, format)
    else
      match internalFormat with
      | .R16F => getSupportedFormat support .RG16F .RG
      | .RG16F => getSupportedFormat support .RGBA16F .RGBA
      | _ => none
termination_by internalFormat _ => formatRank internalFormat
decreasing_by all_goals simp [formatRank]

/-- The per-channel-count format records produced by `getWebGLContext`. -/
structure FormatTier where
  formatRGBA : Option (InternalFormat × ClientFormat)
  formatRG : Option (InternalFormat × ClientFormat)
  formatR : Option (InternalFormat × ClientFormat)
deriving DecidableEq, Repr

/-- Format selection of `getWebGLContext`: on WebGL2 the three channel
counts probe `RGBA16F`, `RG16F`, `R16F`; on WebGL1 only unsized `RGBA`
is probed and the two narrower tiers reuse the `formatRGBA` record. -/
def contextFormats (isWebGL2 : Bool)
    (support : InternalFormat → ClientFormat → Bool) : FormatTier :=
  if isWebGL2 then
    { formatRGBA := getSupportedFormat support .RGBA16F .RGBA
      formatRG := getSupportedFormat support .RG16F .RG
      formatR := getSupportedFormat support .R16F .RED }
  else
    let formatRGBA := getSupportedFormat support .RGBA .RGBA
    { formatRGBA := formatRGBA, formatRG := formatRGBA, formatR := formatRGBA }

/-! ## Resolution derivation (`getResolution`) -/

/-- Model of `Math.round` for the (positive) values the module feeds it. -/
def jsRound (x : ℚ) : ℤ := ⌊x + 1/2⌋

structure Resolution where
  width : ℤ
  height : ℤ
deriving DecidableEq, Repr

/-- Model of `getResolution`: `w`, `h` are `gl.drawingBufferWidth` and
`gl.drawingBufferHeight`. -/
def getResolution (w h : ℕ) (resolution : ℚ) : Resolution :=
  let aspect0 : ℚ := (w : ℚ) / (h : ℚ)
  let aspect : ℚ := if aspect0 < 1 then 1 / aspect0 else aspect0
  let mn : ℤ := jsRound resolution
  let mx : ℤ := jsRound (resolution * aspect)
  if h < w then { width := mx, height := mn } else { width := mn, height := mx }

/-! ## Render-target pool (`createFBO`, `createDoubleFBO`, `initFramebuffers`)

A target's texture is created by `texImage2D` with `null` data (modelled
by the arbitrary `contents` argument) and then `gl.clear` runs while the
new framebuffer is bound, overwriting every texel with the context clear
color configured once in `getWebGLContext`: `gl.clearColor(0,0,0,1)`. -/

/-- One render target: a `w × h` texture of 4-channel texels. -/
structure FBO where
  width : ℕ
  height : ℕ
  pixel : ℕ → ℕ → Fin 4 → ℚ

/-- The context clear color set by `gl.clearColor(0.0, 0.0, 0.0, 1.0)`:
zero in the three color channels, one in the alpha channel. -/
def clearColorValue : Fin 4 → ℚ := fun c => if c = 3 then 1 else 0

/-- Effect of `gl.clear(gl.COLOR_BUFFER_BIT)` on the bound target. -/
def glClear (_old : ℕ → ℕ → Fin 4 → ℚ) : ℕ → ℕ → Fin 4 → ℚ :=
  fun _ _ c => clearColorValue c

/-- Model of `createFBO`: allocate a texture with unspecified `contents`
and immediately clear it. -/
def createFBO (w h : ℕ) (contents : ℕ → ℕ → Fin 4 → ℚ) : FBO :=
  { width := w, height := h, pixel := glClear contents }

/-- A double-buffered (ping-pong) pair. -/
structure PingPong (α : Type) where
  read : α
  write : α

def PingPong.swap {α : Type} (p : PingPong α) : PingPong α := ⟨p.write, p.read⟩

/-- Model of `createDoubleFBO`. -/
def createDoubleFBO (w h : ℕ) (c1 c2 : ℕ → ℕ → Fin 4 → ℚ) : PingPong FBO :=
  ⟨createFBO w h c1, createFBO w h c2⟩

/-- The five module-level targets (`dye, velocity, divergence, curl,
pressure`); `none` models a still-undefined `let` binding. -/
structure PoolState where
  dye : Option (PingPong FBO)
  velocity : Option (PingPong FBO)
  divergence : Option FBO
  curl : Option FBO
  pressure : Option (PingPong FBO)

def emptyPool : PoolState := ⟨none, none, none, none, none⟩

/-- Model of `initFramebuffers`: derive the two resolutions, and if either
the 4-channel or the 2-channel format record is `null`, return with the
previous pool untouched; otherwise rebuild all five targets from scratch.
The `contents` family supplies the unspecified pre-clear texture data. -/
def initFramebuffers (bw bh : ℕ) (t : FormatTier)
    (contents : ℕ → ℕ → ℕ → Fin 4 → ℚ) (prev : PoolState) : PoolState :=
  let simRes := getResolution bw bh SIM_RESOLUTION
  let dyeRes := getResolution bw bh DYE_RESOLUTION
  if t.formatRGBA = none ∨ t.formatRG = none then prev
  else
    { dye := some (createDoubleFBO dyeRes.width.toNat dyeRes.height.toNat
        (contents 0) (contents 1))
      velocity := some (createDoubleFBO simRes.width.toNat simRes.height.toNat
        (contents 2) (contents 3))
      divergence := some (createFBO simRes.width.toNat simRes.height.toNat (contents 4))
      curl := some (createFBO simRes.width.toNat simRes.height.toNat (contents 5))
      pressure := some (createDoubleFBO simRes.width.toNat simRes.height.toNat
        (contents 6) (contents 7)) }

/-- Spec-side predicate: a target reads the configured clear color in
every channel of every texel. -/
def FBOCleared (f : FBO) : Prop := ∀ i j c, f.pixel i j c = clearColorValue c

def DoubleCleared (f : PingPong FBO) : Prop := FBOCleared f.read ∧ FBOCleared f.write

/-- Spec-side predicate: all five pool targets exist and read the clear
color everywhere. -/
def PoolCleared (st : PoolState) : Prop :=
  (∃ d, st.dye = some d ∧ DoubleCleared d) ∧
  (∃ v, st.velocity = some v ∧ DoubleCleared v) ∧
  (∃ f, st.divergence = some f ∧ FBOCleared f) ∧
  (∃ f, st.curl = some f ∧ FBOCleared f) ∧
  (∃ p, st.pressure = some p ∧ DoubleCleared p)

/-! ## Startup control flow (the module body after context creation)

The module body runs `initFramebuffers()` and then unconditionally
executes the four-iteration initial-splat loop; each `splat` call begins
with `velocity.read.attach(0)` and later `dye.read.attach(0)`, which in
JavaScript throw a `TypeError` when the corresponding module variable is
still `undefined`.  The field arithmetic of a successful splat is
irrelevant to this control flow and is abstracted by the `applyV` /
`applyD` parameters (it is modelled exactly in `Fluid.splat` below). -/

inductive JsError
  | typeError
deriving DecidableEq, Repr

/-- One `splat(...)` call at pool level: dereference `velocity`, update
it (pass plus swap), then dereference `dye` and update it. -/
def splatPoolStep (applyV applyD : PingPong FBO → PingPong FBO) (st : PoolState) :
    Except JsError PoolState :=
  match st.velocity with
  | none => .error .typeError
  | some v =>
    let st1 : PoolState := { st with velocity := some (applyV v) }
    match st1.dye with
    | none => .error .typeError
    | some d => .ok { st1 with dye := some (applyD d) }

/-- The `for (let i = 0; i < 4; i++) { ... splat(...) }` initial loop. -/
def initialSplatLoop (applyV applyD : PingPong FBO → PingPong FBO) (st : PoolState) :
    Except JsError PoolState :=
  (List.range 4).foldlM (fun s _ => splatPoolStep applyV applyD s) st

/-- Module startup after a context was obtained: compute the format tier,
run `initFramebuffers` on the empty pool, then run the initial splats. -/
def startupAfterContext (isWebGL2 : Bool)
    (support : InternalFormat → ClientFormat → Bool) (bw bh : ℕ)
    (contents : ℕ → ℕ → ℕ → Fin 4 → ℚ)
    (applyV applyD : PingPong FBO → PingPong FBO) : Except JsError PoolState :=
  let t := contextFormats isWebGL2 support
  let st := initFramebuffers bw bh t contents emptyPool
  initialSplatLoop applyV applyD st

/-! ## Pressure stage of `step` (clear pass + Jacobi loop) -/

/-- A scalar field sampled at texel indices. -/
def Grid : Type := ℕ → ℕ → ℚ

/-- One texel of the clear shader: `value * texture2D(uTexture, vUv)`. -/
def clearShaderTexel (value : ℚ) (src : Grid) (w h i j : ℕ) : ℚ :=
  value * sampleNearest src w h (vUvX w i) (vUvX h j)

/-- One texel of the pressure shader: neighbors of the previous pressure
iterate (one texel offsets computed by the base vertex shader from
`texelSize = (1/w, 1/h)`) and the divergence at the center, combined as
`(L + R + B + T - divergence) * 0.25`.  The shader also reads the center
pressure into `C` but never uses it. -/
def pressureShaderTexel (w h : ℕ) (P D : Grid) (i j : ℕ) : ℚ :=
  let vUv : ℚ × ℚ := (vUvX w i, vUvX h j)
  let vL : ℚ × ℚ := (vUv.1 - 1 / (w : ℚ), vUv.2)
  let vR : ℚ × ℚ := (vUv.1 + 1 / (w : ℚ), vUv.2)
  let vT : ℚ × ℚ := (vUv.1, vUv.2 + 1 / (h : ℚ))
  let vB : ℚ × ℚ := (vUv.1, vUv.2 - 1 / (h : ℚ))
  let L := sampleNearest P w h vL.1 vL.2
  let R := sampleNearest P w h vR.1 vR.2
  let T := sampleNearest P w h vT.1 vT.2
  let B := sampleNearest P w h vB.1 vB.2
  let divergence := sampleNearest D w h vUv.1 vUv.2
  (L + R + B + T - divergence) * 0.25

/-- The pressure-decay pass of `step`: render the clear shader with
`value = config.PRESSURE` into `pressure.write`, then swap. -/
def clearPass (w h : ℕ) (value : ℚ) (p : PingPong Grid) : PingPong Grid :=
  PingPong.swap ⟨p.read, fun i j => clearShaderTexel value p.read w h i j⟩

/-- One iteration of the pressure loop: render the pressure shader from
`pressure.read` into `pressure.write`, then swap. -/
def jacobiSweep (w h : ℕ) (D : Grid) (p : PingPong Grid) : PingPong Grid :=
  PingPong.swap ⟨p.read, fun i j => pressureShaderTexel w h p.read D i j⟩

/-- The `for (let i = 0; i < config.PRESSURE_ITERATIONS; i++)` loop. -/
def pressureLoop (w h : ℕ) (D : Grid) : ℕ → PingPong Grid → PingPong Grid
  | 0, p => p
  | n + 1, p => pressureLoop w h D n (jacobiSweep w h D p)

/-- The whole pressure stage of one `step`: decay pass, then `n`
Jacobi iterations (`n = config.PRESSURE_ITERATIONS` in the source). -/
def pressureStage (w h : ℕ) (value : ℚ) (D : Grid) (n : ℕ) (p : PingPong Grid) :
    PingPong Grid :=
  pressureLoop w h D n (clearPass w h value p)

/-! ## Divergence pass -/

/-- A two-component (velocity) field sampled at texel indices. -/
def VGrid : Type := ℕ → ℕ → ℚ × ℚ

/-- One texel of the divergence shader, including its boundary rule: a
neighbor whose sampling coordinate falls outside `[0,1]` on the sampled
axis is replaced by the negated center component.  The velocity texture
is fetched at exact texel centers (where LINEAR and NEAREST filtering
agree), CLAMP_TO_EDGE addressing. -/
def divergenceShaderTexel (w h : ℕ) (V : VGrid) (i j : ℕ) : ℚ :=
  let vUv : ℚ × ℚ := (vUvX w i, vUvX h j)
  let vL : ℚ × ℚ := (vUv.1 - 1 / (w : ℚ), vUv.2)
  let vR : ℚ × ℚ := (vUv.1 + 1 / (w : ℚ), vUv.2)
  let vT : ℚ × ℚ := (vUv.1, vUv.2 + 1 / (h : ℚ))
  let vB : ℚ × ℚ := (vUv.1, vUv.2 - 1 / (h : ℚ))
  let L0 := (sampleNearest V w h vL.1 vL.2).1
  let R0 := (sampleNearest V w h vR.1 vR.2).1
  let T0 := (sampleNearest V w h vT.1 vT.2).2
  let B0 := (sampleNearest V w h vB.1 vB.2).2
  let C := sampleNearest V w h vUv.1 vUv.2
  let L := if vL.1 < 0 then -C.1 else L0
  let R := if vR.1 > 1 then -C.1 else R0
  let T := if vT.2 > 1 then -C.2 else T0
  let B := if vB.2 < 0 then -C.2 else B0
  0.5 * (R - L + T - B)

/-! ## Pointer consumption in `update` -/

/-- The single tracked pointer record. -/
structure Pointer where
  texcoordX : ℚ
  texcoordY : ℚ
  prevTexcoordX : ℚ
  prevTexcoordY : ℚ
  deltaX : ℚ
  deltaY : ℚ
  down : Bool
  moved : Bool
  color : ℚ × ℚ × ℚ
deriving DecidableEq

/-- Observable actions of the pointer-consumption block of `update`, in
program order. -/
inductive TickEvent
  | clearMoved
  | pointerSplat (x y dx dy : ℚ) (color : ℚ × ℚ × ℚ)
deriving DecidableEq

def TickEvent.isSplat : TickEvent → Bool
  | .pointerSplat _ _ _ _ _ => true
  | _ => false

/-- Model of the `if (p.moved) { ... }` block of `update`: clear the
moved flag, advance the color timer, store a fresh color, and issue one
splat from the pointer position and delta; otherwise do nothing.
`newColor` stands for the `getRandomColor()` draw. -/
def consumePointer (colorTimer dt : ℚ) (p : Pointer) (newColor : ℚ × ℚ × ℚ) :
    (ℚ × Pointer) × List TickEvent :=
  if p.moved then
    ((colorTimer + dt * COLOR_UPDATE_SPEED, { p with moved := false, color := newColor }),
     [.clearMoved, .pointerSplat p.texcoordX p.texcoordY p.deltaX p.deltaY newColor])
  else ((colorTimer, p), [])

/-! ## Advection (manual bilinear shader and the two advection passes)

The advection fragment shader always interpolates manually (`bilerp`);
`texture2D` inside `bilerp` is a NEAREST fetch of the sampled grid.  The
grid value type is kept generic so the same shader model covers the
velocity field (pairs) and the dye field (triples); `result / decay` is
the componentwise division of the shader. -/

/-- GLSL `mix(x, y, a) = x * (1 - a) + y * a`, componentwise. -/
def glslMix {M : Type} [AddCommGroup M] [Module ℚ M] (x y : M) (a : ℚ) : M :=
  (1 - a) • x + a • y

/-- The `bilerp` helper of the advection shader: `w × h` are the true
dimensions of the sampled texture, `tX, tY` the `tsize` uniform value it
is given (the two agree only when the caller sets the uniform). -/
def bilerp {M : Type} [AddCommGroup M] [Module ℚ M]
    (sam : ℕ → ℕ → M) (w h : ℕ) (u v tX tY : ℚ) : M :=
  let stX := u / tX - 1/2
  let stY := v / tY - 1/2
  let iuvX : ℚ := (⌊stX⌋ : ℚ)
  let iuvY : ℚ := (⌊stY⌋ : ℚ)
  let fuvX := stX - iuvX
  let fuvY := stY - iuvY
  let a := sampleNearest sam w h ((iuvX + 0.5) * tX) ((iuvY + 0.5) * tY)
  let b := sampleNearest sam w h ((iuvX + 1.5) * tX) ((iuvY + 0.5) * tY)
  let c := sampleNearest sam w h ((iuvX + 0.5) * tX) ((iuvY + 1.5) * tY)
  let d := sampleNearest sam w h ((iuvX + 1.5) * tX) ((iuvY + 1.5) * tY)
  glslMix (glslMix a b fuvX) (glslMix c d fuvX) fuvY

/-- One texel of the advection shader, written to texel `(i, j)` of a
`dw × dh` destination: backward-trace through the velocity sampled with
the `texelSize` uniform, fetch the source with the `dyeTexelSize`
uniform, divide by the dissipation decay. -/
def advectionShaderTexel {M : Type} [AddCommGroup M] [Module ℚ M]
    (vel : VGrid) (vw vh : ℕ) (src : ℕ → ℕ → M) (sw sh : ℕ)
    (tSize dyeTSize : ℚ × ℚ) (dt dissipation : ℚ) (dw dh i j : ℕ) : M :=
  let vUv : ℚ × ℚ := (vUvX dw i, vUvX dh j)
  let v := bilerp vel vw vh vUv.1 vUv.2 tSize.1 tSize.2
  let coord : ℚ × ℚ := (vUv.1 - dt * v.1 * tSize.1, vUv.2 - dt * v.2 * tSize.2)
  let result := bilerp src sw sh coord.1 coord.2 dyeTSize.1 dyeTSize.2
  let decay := 1 + dissipation * dt
  decay⁻¹ • result

/-- A three-channel (dye color) field sampled at texel indices. -/
def CGrid : Type := ℕ → ℕ → ℚ × ℚ × ℚ

/-- The two advection-related uniforms of the advection program.  WebGL
initializes uniforms to zero at link time, so a never-set uniform reads
`(0, 0)`. -/
structure AdvectionUniforms where
  texSize : ℚ × ℚ
  dyeTexSize : ℚ × ℚ
deriving DecidableEq, Repr

def initialAdvectionUniforms : AdvectionUniforms := ⟨(0, 0), (0, 0)⟩

/-- The `dyeTexelSize` value in effect during the velocity-advection
blit: `step` assigns the velocity texel size to it only inside
`if (!ext.supportLinearFiltering)`; otherwise the uniform keeps whatever
value it had before the pass. -/
def velocityPassDyeTexelSize (supportLinearFiltering : Bool)
    (prevDyeTexSize velTexSize : ℚ × ℚ) : ℚ × ℚ :=
  if supportLinearFiltering then prevDyeTexSize else velTexSize

/-- The advection section at the end of `step`: set `texelSize` to the
velocity texel size, conditionally set `dyeTexelSize`, advect velocity
through itself and swap, then set `dyeTexelSize` to the dye texel size
and advect the dye through the post-swap velocity, and swap.  Returns
the final uniform state and both double buffers. -/
def stepAdvection (supportLinearFiltering : Bool) (vw vh dw dh : ℕ)
    (u0 : AdvectionUniforms) (vel : PingPong VGrid) (dye : PingPong CGrid) (dt : ℚ) :
    AdvectionUniforms × PingPong VGrid × PingPong CGrid :=
  let velTexSize : ℚ × ℚ := (1 / (vw : ℚ), 1 / (vh : ℚ))
  let u1 : AdvectionUniforms :=
    ⟨velTexSize, velocityPassDyeTexelSize supportLinearFiltering u0.dyeTexSize velTexSize⟩
  let velNew : VGrid := fun i j =>
    advectionShaderTexel vel.read vw vh vel.read vw vh u1.texSize u1.dyeTexSize
      dt VELOCITY_DISSIPATION vw vh i j
  let vel1 : PingPong VGrid := PingPong.swap ⟨vel.read, velNew⟩
  let u2 : AdvectionUniforms := ⟨u1.texSize, (1 / (dw : ℚ), 1 / (dh : ℚ))⟩
  let dyeNew : CGrid := fun i j =>
    advectionShaderTexel vel1.read vw vh dye.read dw dh u2.texSize u2.dyeTexSize
      dt DENSITY_DISSIPATION dw dh i j
  let dye1 : PingPong CGrid := PingPong.swap ⟨dye.read, dyeNew⟩
  (u2, vel1, dye1)

/-! ## Splat (real-valued: the kernel is a true exponential)

The splat passes are modelled over `ℝ` because the kernel is
`exp(-dot(p,p) / radius)`.  The velocity target keeps only the two
channels the shader output feeds (`color.z` is written into a dropped
channel), and the dye target the three channels the display pass reads;
the shader writes alpha `1.0` separately, which no claim mentions. -/

/-- Texel-center coordinate, real-valued. -/
noncomputable def vUvR (n i : ℕ) : ℝ := ((i : ℝ) + 1/2) / (n : ℝ)

def VGridR : Type := ℕ → ℕ → ℝ × ℝ

def CGridR : Type := ℕ → ℕ → ℝ × ℝ × ℝ

/-- The velocity and dye double buffers touched by `splat`. -/
structure FluidFields where
  velocity : PingPong VGridR
  dye : PingPong CGridR

/-- Model of `correctRadius`. -/
noncomputable def correctRadius (aspect radius : ℝ) : ℝ :=
  if 1 < aspect then radius * aspect else radius

/-- The splat shader kernel at fragment coordinate `(u, v)`:
`p = vUv - point`, `p.x *= aspectRatio`, `exp(-dot(p, p) / radius)`. -/
noncomputable def splatKernel (aspect radius x y u v : ℝ) : ℝ :=
  let pX := (u - x) * aspect
  let pY := v - y
  Real.exp (-(pX * pX + pY * pY) / radius)

/-- The velocity blit of `splat` followed by `velocity.swap()`: each
texel gains the kernel times the uniform `color` (here the scaled force
vector); the base value is the same texel of the read buffer. -/
noncomputable def splatPassVelocity (aspect radius x y : ℝ) (color : ℝ × ℝ × ℝ) (vw vh : ℕ)
    (vel : PingPong VGridR) : PingPong VGridR :=
  PingPong.swap ⟨vel.read, fun i j =>
    let k := splatKernel aspect radius x y (vUvR vw i) (vUvR vh j)
    let base := vel.read i j
    (base.1 + k * color.1, base.2 + k * color.2.1)⟩

/-- The dye blit of `splat` followed by `dye.swap()`; the kernel uniforms
(`aspectRatio`, `point`, `radius`) are exactly those left bound by the
velocity blit. -/
noncomputable def splatPassDye (aspect radius x y : ℝ) (color : ℝ × ℝ × ℝ) (dw dh : ℕ)
    (dye : PingPong CGridR) : PingPong CGridR :=
  PingPong.swap ⟨dye.read, fun i j =>
    let k := splatKernel aspect radius x y (vUvR dw i) (vUvR dh j)
    let base := dye.read i j
    (base.1 + k * color.1, base.2.1 + k * color.2.1, base.2.2 + k * color.2.2)⟩

/-- Model of `splat(x, y, dx, dy, color)`: one velocity pass with the
force color `(dx * SPLAT_FORCE, dy * SPLAT_FORCE, 0)` and one dye pass
with `color`, sharing `aspectRatio = canvas.width / canvas.height`,
`point` and the corrected radius. -/
noncomputable def splat (cw ch vw vh dw dh : ℕ) (st : FluidFields) (x y dx dy : ℝ)
    (color : ℝ × ℝ × ℝ) : FluidFields :=
  let aspect : ℝ := (cw : ℝ) / (ch : ℝ)
  let radius : ℝ := correctRadius aspect (((SPLAT_RADIUS : ℚ) : ℝ) / 100)
  let vel1 := splatPassVelocity aspect radius x y
    (dx * ((SPLAT_FORCE : ℚ) : ℝ), dy * ((SPLAT_FORCE : ℚ) : ℝ), 0) vw vh st.velocity
  let dye1 := splatPassDye aspect radius x y color dw dh st.dye
  ⟨vel1, dye1⟩

/-! ## Initial splats (module body, after `initFramebuffers()`) -/

/-- Arguments of one initial `splat` call. -/
structure SplatCall where
  color : ℚ × ℚ × ℚ
  x : ℚ
  y : ℚ
  dx : ℚ
  dy : ℚ
deriving DecidableEq, Repr

/-- The four initial splat calls: iteration `k` draws five `Math.random()`
values in source order (color index, x, y, dx, dy), so it consumes the
stream entries `5k .. 5k+4`. -/
def initialSplatCalls (rand : ℕ → ℚ) : List SplatCall :=
  (List.range 4).map fun k =>
    { color := getRandomColor (rand (5 * k))
      x := rand (5 * k + 1)
      y := rand (5 * k + 2)
      dx := (rand (5 * k + 3) - 0.5) * 0.001
      dy := (rand (5 * k + 4) - 0.5) * 0.001 }

/-- Run the four initial splats against the field model. -/
noncomputable def runInitialSplats (cw ch vw vh dw dh : ℕ) (rand : ℕ → ℚ) (st : FluidFields) :
    FluidFields :=
  (initialSplatCalls rand).foldl
    (fun s c => splat cw ch vw vh dw dh s (c.x : ℝ) (c.y : ℝ) (c.dx : ℝ) (c.dy : ℝ)
      ((c.color.1 : ℝ), (c.color.2.1 : ℝ), (c.color.2.2 : ℝ))) st

/-- Zero-valued fields (what a freshly cleared pool holds in the channels
the simulation reads). -/
noncomputable def zeroFields : FluidFields :=
  ⟨⟨fun _ _ => (0, 0), fun _ _ => (0, 0)⟩, ⟨fun _ _ => (0, 0, 0), fun _ _ => (0, 0, 0)⟩⟩

/-! # Theorems -/

theorem texIndex_center {n i : ℕ} (hi : i < n) : texIndex n (vUvX n i) = i := by
  have hn : (0 : ℚ) < (n : ℚ) := by
    exact_mod_cast Nat.zero_lt_of_lt hi
  have hmul : vUvX n i * (n : ℚ) = (i : ℚ) + 1/2 := by
    unfold vUvX
    field_simp
    ring
  have hfl : ⌊vUvX n i * (n : ℚ)⌋ = (i : ℤ) := by
    rw [hmul, Int.floor_eq_iff]
    constructor
    · push_cast; linarith
    · push_cast; linarith
  unfold texIndex
  rw [hfl]
  simp [Nat.le_sub_one_of_lt hi]

theorem texIndex_left {n i : ℕ} (hi : i < n) :
    texIndex n (vUvX n i - 1 / (n : ℚ)) = i - 1 := by
  have hn : (0 : ℚ) < (n : ℚ) := by
    exact_mod_cast Nat.zero_lt_of_lt hi
  have hmul : (vUvX n i - 1 / (n : ℚ)) * (n : ℚ) = (i : ℚ) - 1/2 := by
    unfold vUvX
    field_simp
    ring
  unfold texIndex
  rw [hmul]
  rcases Nat.eq_zero_or_pos i with h0 | hpos
  · subst h0
    have : ⌊(0 : ℚ) - 1/2⌋ = (-1 : ℤ) := by norm_num
    simp only [Nat.cast_zero, this]
    simp
  · have hfl : ⌊(i : ℚ) - 1/2⌋ = (i : ℤ) - 1 := by
      rw [Int.floor_eq_iff]
      push_cast
      have h1 : (1 : ℚ) ≤ (i : ℚ) := by exact_mod_cast hpos
      constructor <;> linarith
    rw [hfl]
    have h1 : Int.toNat ((i : ℤ) - 1) = i - 1 := by omega
    rw [h1]
    have : i - 1 ≤ n - 1 := by omega
    omega

theorem texIndex_right {n i : ℕ} (hi : i < n) :
    texIndex n (vUvX n i + 1 / (n : ℚ)) = min (n - 1) (i + 1) := by
  have hn : (0 : ℚ) < (n : ℚ) := by
    exact_mod_cast Nat.zero_lt_of_lt hi
  have hmul : (vUvX n i + 1 / (n : ℚ)) * (n : ℚ) = (i : ℚ) + 3/2 := by
    unfold vUvX
    field_simp
    ring
  have hfl : ⌊(i : ℚ) + 3/2⌋ = (i : ℤ) + 1 := by
    rw [Int.floor_eq_iff]
    push_cast
    constructor <;> linarith
  unfold texIndex
  rw [hmul, hfl]
  omega

/-- C7: a successful probe returns the requested pair unchanged; a failed
1-channel request escalates to the 2-channel request, a failed 2-channel
request to the 4-channel request, and a failed 4-channel (richest)
request yields no format; on the WebGL1 tier the 2- and 1-channel
records are the 4-channel record. -/
theorem getSupportedFormat_spec (support : InternalFormat → ClientFormat → Bool) :
    (∀ i f, support i f = true → getSupportedFormat support i f = some (i, f)) ∧
    (support .R16F .RED = false →
      getSupportedFormat support .R16F .RED = getSupportedFormat support .RG16F .RG) ∧
    (support .RG16F .RG = false →
      getSupportedFormat support .RG16F .RG = getSupportedFormat support .RGBA16F .RGBA) ∧
    (support .RGBA16F .RGBA = false →
      getSupportedFormat support .RGBA16F .RGBA = none) ∧
    ((contextFormats false support).formatRG = (contextFormats false support).formatRGBA ∧
      (contextFormats false support).formatR = (contextFormats false support).formatRGBA) := by
  refine ⟨?_, ?_, ?_, ?_, rfl, rfl⟩
  · intro i f hs
    cases i <;> rw [getSupportedFormat] <;> simp [hs]
  · intro hs
    rw [getSupportedFormat]
    conv_rhs => rw [getSupportedFormat]
    simp [hs]
    rw [getSupportedFormat]
  · intro hs
    rw [getSupportedFormat]
    simp [hs]
  · intro hs
    rw [getSupportedFormat] <;> simp [hs]

/-- Witness for C7 at the concrete all-failing probe. -/
theorem getSupportedFormat_spec_witness :
    getSupportedFormat (fun _ _ => false) .RGBA16F .RGBA = none :=
  (getSupportedFormat_spec (fun _ _ => false)).2.2.2.1 rfl

/-- C4: the resolution formula gives `round(base * aspect)` to the
physically larger axis and `round(base)` to the other axis, in both the
landscape and the portrait case, where `aspect` is the width/height
ratio normalized to be at least one; when the two drawing-buffer
dimensions agree (aspect ratio exactly one), swapping the width/height
arguments leaves the result unchanged. -/
theorem getResolution_spec (w h : ℕ) (res : ℚ) (hw : 0 < w) (hh : 0 < h) :
    (h < w → (getResolution w h res).width = jsRound (res * ((w : ℚ) / (h : ℚ))) ∧
      (getResolution w h res).height = jsRound res) ∧
    (w < h → (getResolution w h res).width = jsRound res ∧
      (getResolution w h res).height = jsRound (res * ((h : ℚ) / (w : ℚ)))) ∧
    (w = h → getResolution w h res = getResolution h w res) := by
  refine ⟨?_, ?_, ?_⟩
  · intro hlt
    have hq : (1 : ℚ) ≤ (w : ℚ) / (h : ℚ) := by
      rw [le_div_iff (by exact_mod_cast hh)]
      simpa using (by exact_mod_cast hlt.le : (h : ℚ) ≤ (w : ℚ))
    simp only [getResolution]
    rw [if_neg (not_lt.mpr hq), if_pos hlt]
    exact ⟨rfl, rfl⟩
  · intro hlt
    have hq : (w : ℚ) / (h : ℚ) < 1 := by
      rw [div_lt_one (by exact_mod_cast hh)]
      exact_mod_cast hlt
    have hswap : 1 / ((w : ℚ) / (h : ℚ)) = (h : ℚ) / (w : ℚ) := by
      rw [one_div, inv_div]
    simp only [getResolution]
    rw [if_pos hq, if_neg (by omega : ¬ h < w), hswap]
    exact ⟨rfl, rfl⟩
  · intro he
    subst he
    rfl

/-- Witness for C4 at a concrete landscape drawing buffer. -/
theorem getResolution_spec_witness :
    (getResolution 16 9 128).width = jsRound (128 * (((16 : ℕ) : ℚ) / ((9 : ℕ) : ℚ))) ∧
    (getResolution 16 9 128).height = jsRound 128 :=
  (getResolution_spec 16 9 128 (by decide) (by decide)).1 (by decide)

/-- C1 (code evaluated at the failing input): on a device where every
render-texture probe fails, all three format records are `null`, so
`initFramebuffers` returns without creating any target — and the
unconditional initial-splat loop then dereferences the still-undefined
`velocity` binding, throwing a TypeError that escapes the module body
(rather than the inert, exception-free decline the spec requires). -/
theorem startup_unsupported_device_throws
    (bw bh : ℕ) (contents : ℕ → ℕ → ℕ → Fin 4 → ℚ)
    (applyV applyD : PingPong FBO → PingPong FBO) :
    startupAfterContext true (fun _ _ => false) bw bh contents applyV applyD =
      .error .typeError := by
  have hRGBA : getSupportedFormat (fun _ _ => false) .RGBA16F .RGBA = none := by
    rw [getSupportedFormat] <;> simp
  have hRG : getSupportedFormat (fun _ _ => false) .RG16F .RG = none := by
    rw [getSupportedFormat]
    simpa using hRGBA
  have hR : getSupportedFormat (fun _ _ => false) .R16F .RED = none := by
    rw [getSupportedFormat]
    simpa using hRG
  have hT : contextFormats true (fun _ _ => false) = ⟨none, none, none⟩ := by
    simp only [contextFormats, if_pos]
    rw [hRGBA, hRG, hR]
  unfold startupAfterContext
  rw [hT]
  rfl

/-- C5 counterexample: the claim as stated fails — a freshly created
render target does not read zero in all channels: the alpha channel of
texel `(0,0)` of a fresh 4-channel target reads `1`, because the pool
clears with the configured clear color `(0, 0, 0, 1)`. -/
theorem createFBO_alpha_reads_one :
    ¬ (createFBO 4 4 (fun _ _ _ => 0)).pixel 0 0 3 = 0 := by
  decide

/-- C5 (amended): every channel of every texel of a freshly created
target reads the configured clear color `(0,0,0,1)` — zero in the color
channels, one in alpha — regardless of the prior texture contents, and a
pool rebuild (with usable formats) leaves every one of the five targets
reading exactly that clear value, discarding all prior contents. -/
theorem pool_clear_spec (bw bh : ℕ) (t : FormatTier)
    (contents : ℕ → ℕ → ℕ → Fin 4 → ℚ) (prev : PoolState)
    (hrgba : t.formatRGBA ≠ none) (hrg : t.formatRG ≠ none) :
    (∀ w h c0 i j c, (createFBO w h c0).pixel i j c = clearColorValue c) ∧
    PoolCleared (initFramebuffers bw bh t contents prev) := by
  constructor
  · intro w h c0 i j c
    rfl
  · have hcond : ¬ (t.formatRGBA = none ∨ t.formatRG = none) := by
      simp [hrgba, hrg]
    simp only [initFramebuffers]
    rw [if_neg hcond]
    exact ⟨⟨_, rfl, fun i j c => rfl, fun i j c => rfl⟩,
      ⟨_, rfl, fun i j c => rfl, fun i j c => rfl⟩,
      ⟨_, rfl, fun i j c => rfl⟩,
      ⟨_, rfl, fun i j c => rfl⟩,
      ⟨_, rfl, fun i j c => rfl, fun i j c => rfl⟩⟩

/-- Witness for C5 at a concrete rebuild with all formats present and a
nonzero prior texture-content family. -/
theorem pool_clear_spec_witness :
    PoolCleared (initFramebuffers 800 600
      ⟨some (.RGBA16F, .RGBA), some (.RG16F, .RG), some (.R16F, .RED)⟩
      (fun _ _ _ _ => 7) emptyPool) :=
  (pool_clear_spec 800 600
    ⟨some (.RGBA16F, .RGBA), some (.RG16F, .RG), some (.R16F, .RED)⟩
    (fun _ _ _ _ => 7) emptyPool (by simp) (by simp)).2

/-- The pressure loop is the `n`-fold iterate of one Jacobi sweep. -/
theorem pressureLoop_eq_iterate (w h : ℕ) (D : Grid) (n : ℕ) (p : PingPong Grid) :
    pressureLoop w h D n p = (jacobiSweep w h D)^[n] p := by
  induction n generalizing p with
  | zero => rfl
  | succ n ih =>
    rw [pressureLoop, ih, Function.iterate_succ_apply]

/-- C2: the pressure stage is exactly `n` Jacobi sweeps applied after the
decay pass; each sweep reads the previous iterate's four (edge-clamped)
neighbors and the divergence and writes `(L + R + B + T - divergence) / 4`,
swapping the double buffer (the new write half is the old read half);
with `n = 0` sweeps the readable pressure is the previous pressure field
scaled by the carry-over factor, the identity when that factor is `1`. -/
theorem pressure_stage_spec (w h : ℕ) (value : ℚ) (D : Grid) (n : ℕ) (p : PingPong Grid) :
    (pressureStage w h value D n p = (jacobiSweep w h D)^[n] (clearPass w h value p)) ∧
    (∀ q : PingPong Grid, ∀ i j, i < w → j < h →
      (jacobiSweep w h D q).read i j =
        (q.read (i - 1) j + q.read (min (w - 1) (i + 1)) j + q.read i (j - 1) +
          q.read i (min (h - 1) (j + 1)) - D i j) / 4 ∧
      (jacobiSweep w h D q).write = q.read) ∧
    (∀ i j, i < w → j < h →
      (pressureStage w h value D 0 p).read i j = value * p.read i j) ∧
    (value = 1 → ∀ i j, i < w → j < h →
      (pressureStage w h value D 0 p).read i j = p.read i j) := by
  have hclear : ∀ i j, i < w → j < h →
      (pressureStage w h value D 0 p).read i j = value * p.read i j := by
    intro i j hi hj
    show clearShaderTexel value p.read w h i j = value * p.read i j
    unfold clearShaderTexel sampleNearest
    rw [texIndex_center hi, texIndex_center hj]
  refine ⟨pressureLoop_eq_iterate w h D n _, ?_, hclear, ?_⟩
  · intro q i j hi hj
    constructor
    · show pressureShaderTexel w h q.read D i j = _
      unfold pressureShaderTexel sampleNearest
      dsimp only
      rw [texIndex_center hi, texIndex_center hj, texIndex_left hi, texIndex_left hj,
        texIndex_right hi, texIndex_right hj]
      rw [div_eq_mul_inv]
      norm_num
    · rfl
  · intro hv i j hi hj
    rw [hclear i j hi hj, hv, one_mul]

/-- Witness for C2 at a concrete grid, divergence field and pressure pair. -/
theorem pressure_stage_spec_witness :
    (pressureStage 2 2 1 (fun i j => (i : ℚ) + j) 0
        ⟨fun i j => (i : ℚ) * 2 + j, fun _ _ => 0⟩).read 1 0 =
      (fun i j => (i : ℚ) * 2 + j) 1 0 :=
  (pressure_stage_spec 2 2 1 (fun i j => (i : ℚ) + j) 0
    ⟨fun i j => (i : ℚ) * 2 + j, fun _ _ => 0⟩).2.2.2 rfl 1 0 (by decide) (by decide)

/-- The left/bottom neighbor coordinate of texel `i` is below `0` exactly
at the first texel. -/
theorem vUvX_sub_neg_iff {n i : ℕ} (hi : i < n) :
    vUvX n i - 1 / (n : ℚ) < 0 ↔ i = 0 := by
  have hn : (0 : ℚ) < (n : ℚ) := by
    exact_mod_cast Nat.zero_lt_of_lt hi
  have he : vUvX n i - 1 / (n : ℚ) = ((i : ℚ) - 1/2) / (n : ℚ) := by
    unfold vUvX
    field_simp
    ring
  rw [he, div_lt_iff hn, zero_mul]
  constructor
  · intro hlt
    by_contra h0
    have h1 : (1 : ℚ) ≤ (i : ℚ) := by
      exact_mod_cast Nat.one_le_iff_ne_zero.mpr h0
    linarith
  · intro h0
    subst h0
    norm_num

/-- The right/top neighbor coordinate of texel `i` exceeds `1` exactly at
the last texel. -/
theorem vUvX_add_gt_one_iff {n i : ℕ} (hi : i < n) :
    1 < vUvX n i + 1 / (n : ℚ) ↔ i + 1 = n := by
  have hn : (0 : ℚ) < (n : ℚ) := by
    exact_mod_cast Nat.zero_lt_of_lt hi
  have he : vUvX n i + 1 / (n : ℚ) = ((i : ℚ) + 3/2) / (n : ℚ) := by
    unfold vUvX
    field_simp
    ring
  rw [he, lt_div_iff hn, one_mul]
  constructor
  · intro hlt
    have h2 : (2 * n : ℤ) < 2 * i + 3 := by
      exact_mod_cast (by linarith : 2 * (n : ℚ) < 2 * (i : ℚ) + 3)
    omega
  · intro he2
    have : (n : ℚ) = (i : ℚ) + 1 := by exact_mod_cast he2.symm
    linarith

/-- C6: each divergence texel is `0.5 * (R - L + T - B)` over the four
velocity neighbors, where the left/right neighbor is replaced by the
negated center x-component when its x coordinate leaves `[0,1]` (texels
`i = 0` and `i = w-1`) and the bottom/top neighbor by the negated center
y-component when its y coordinate leaves `[0,1]` (texels `j = 0` and
`j = h-1`). -/
theorem divergence_texel_spec (w h : ℕ) (V : VGrid) (i j : ℕ) (hi : i < w) (hj : j < h) :
    divergenceShaderTexel w h V i j =
      0.5 * ((if i + 1 = w then -(V i j).1 else (V (i + 1) j).1) -
        (if i = 0 then -(V i j).1 else (V (i - 1) j).1) +
        (if j + 1 = h then -(V i j).2 else (V i (j + 1)).2) -
        (if j = 0 then -(V i j).2 else (V i (j - 1)).2)) := by
  unfold divergenceShaderTexel sampleNearest
  dsimp only
  rw [texIndex_center hi, texIndex_center hj, texIndex_left hi, texIndex_left hj,
    texIndex_right hi, texIndex_right hj]
  simp only [gt_iff_lt, vUvX_sub_neg_iff hi, vUvX_sub_neg_iff hj, vUvX_add_gt_one_iff hi,
    vUvX_add_gt_one_iff hj]
  split_ifs <;>
    (try rw [show min (w - 1) (i + 1) = i + 1 from by omega]) <;>
    (try rw [show min (h - 1) (j + 1) = j + 1 from by omega]) <;>
    (try rfl)

/-- Witness for C6 on a concrete 2-by-2 velocity field at a corner texel. -/
theorem divergence_texel_spec_witness :
    divergenceShaderTexel 2 2 (fun a b => ((a : ℚ), (b : ℚ))) 0 1 = 0 := by
  rw [divergence_texel_spec 2 2 (fun a b => ((a : ℚ), (b : ℚ))) 0 1 (by decide) (by decide)]
  norm_num

/-- C9: the pointer-consumption block of `update` emits at most one splat
per tick; it emits exactly one when the moved flag was set on entry and
none when it was clear; the resulting pointer always has the flag clear;
and in the moved case the emitted action sequence clears the flag
strictly before issuing the single splat, whose arguments are the
pointer's position and delta together with the fresh color. -/
theorem pointer_consume_spec (colorTimer dt : ℚ) (p : Pointer) (newColor : ℚ × ℚ × ℚ) :
    ((consumePointer colorTimer dt p newColor).2.countP TickEvent.isSplat =
      if p.moved then 1 else 0) ∧
    ((consumePointer colorTimer dt p newColor).1.2.moved = false) ∧
    (p.moved = false → (consumePointer colorTimer dt p newColor).2 = []) ∧
    (p.moved = true → (consumePointer colorTimer dt p newColor).2 =
      [.clearMoved, .pointerSplat p.texcoordX p.texcoordY p.deltaX p.deltaY newColor]) := by
  cases hp : p.moved <;>
    simp [consumePointer, hp, List.countP_cons, TickEvent.isSplat]

/-- Witness for C9 at a concrete moved pointer. -/
theorem pointer_consume_spec_witness :
    (consumePointer 0 (1/100)
      ⟨1/2, 1/3, 0, 0, 1/10, -1/10, true, true, (0, 0, 0)⟩ (0, 1/4, 0)).2 =
      [.clearMoved, .pointerSplat (1/2) (1/3) (1/10) (-1/10) (0, 1/4, 0)] :=
  (pointer_consume_spec 0 (1/100) ⟨1/2, 1/3, 0, 0, 1/10, -1/10, true, true, (0, 0, 0)⟩
    (0, 1/4, 0)).2.2.2 rfl

/-- The manual bilinear interpolation of the advection shader, evaluated
at an exact texel center with the texel-size uniform matching the
sampled texture, returns the stored texel value (the interpolation
weights degenerate to the first point sample). -/
theorem bilerp_center {M : Type} [AddCommGroup M] [Module ℚ M] (sam : ℕ → ℕ → M)
    (w h i j : ℕ) (hi : i < w) (hj : j < h) :
    bilerp sam w h (vUvX w i) (vUvX h j) (1 / (w : ℚ)) (1 / (h : ℚ)) = sam i j := by
  have hw : ((w : ℚ)) ≠ 0 := by
    have : (0 : ℚ) < (w : ℚ) := by exact_mod_cast Nat.zero_lt_of_lt hi
    exact ne_of_gt this
  have hh : ((h : ℚ)) ≠ 0 := by
    have : (0 : ℚ) < (h : ℚ) := by exact_mod_cast Nat.zero_lt_of_lt hj
    exact ne_of_gt this
  have hsx : vUvX w i / (1 / (w : ℚ)) - 1/2 = (i : ℚ) := by
    unfold vUvX
    field_simp
    ring
  have hsy : vUvX h j / (1 / (h : ℚ)) - 1/2 = (j : ℚ) := by
    unfold vUvX
    field_simp
    ring
  unfold bilerp
  dsimp only
  rw [hsx, hsy]
  simp only [Int.floor_natCast, Int.cast_natCast, sub_self]
  simp only [glslMix, sub_zero, zero_smul, one_smul, add_zero]
  rw [show ((i : ℚ) + 0.5) * (1 / (w : ℚ)) = vUvX w i from by
      unfold vUvX; rw [mul_one_div]; norm_num,
    show ((j : ℚ) + 0.5) * (1 / (h : ℚ)) = vUvX h j from by
      unfold vUvX; rw [mul_one_div]; norm_num]
  unfold sampleNearest
  rw [texIndex_center hi, texIndex_center hj]

/-- C3 (code evaluated at the failing input): with hardware linear
filtering available (`supportLinearFiltering` truthy), `step` never sets
the `dyeTexelSize` uniform for the velocity-advection pass, so with the
default square-canvas texel sizes (velocity `1/128`, dye `1/1024`) the
velocity source is bilinearly fetched with the uniform left at `(0, 0)`
on the first step (dividing the coordinates by zero) and at the stale
dye texel size afterwards — in both cases not the velocity texel size
the claim requires.  Only with `supportLinearFiltering = false` does the
pass receive the velocity texel size. -/
theorem advect_velocity_texel_size_bug :
    velocityPassDyeTexelSize true initialAdvectionUniforms.dyeTexSize
        (1 / (128 : ℚ), 1 / (128 : ℚ)) = (0, 0) ∧
    velocityPassDyeTexelSize true (1 / (1024 : ℚ), 1 / (1024 : ℚ))
        (1 / (128 : ℚ), 1 / (128 : ℚ)) = (1 / (1024 : ℚ), 1 / (1024 : ℚ)) ∧
    velocityPassDyeTexelSize false initialAdvectionUniforms.dyeTexSize
        (1 / (128 : ℚ), 1 / (128 : ℚ)) = (1 / (128 : ℚ), 1 / (128 : ℚ)) ∧
    ((0 : ℚ), (0 : ℚ)) ≠ (1 / (128 : ℚ), 1 / (128 : ℚ)) ∧
    (1 / (1024 : ℚ), 1 / (1024 : ℚ)) ≠ (1 / (128 : ℚ), 1 / (128 : ℚ)) :=
  ⟨rfl, rfl, rfl, by norm_num [Prod.ext_iff], by norm_num [Prod.ext_iff]⟩

/-- In the no-linear-filtering path (the only path that sets the
`dyeTexelSize` uniform before the velocity blit), the advection section
of `step` matches the spec: the velocity texel is the advection shader
applied to the velocity itself with the velocity texel size for both the
trace and the source fetch and the velocity dissipation constant; the
dye texel is the shader applied to the dye source with the dye texel
size and the dye dissipation constant, tracing through the already
swapped (post-advection) velocity; and each pass performs exactly one
swap (the new write buffer is the old read buffer). -/
theorem step_advection_no_linear (vw vh dw dh : ℕ) (u0 : AdvectionUniforms)
    (vel : PingPong VGrid) (dye : PingPong CGrid) (dt : ℚ) (i j : ℕ) :
    ((stepAdvection false vw vh dw dh u0 vel dye dt).2.1.read i j =
      advectionShaderTexel vel.read vw vh vel.read vw vh
        (1 / (vw : ℚ), 1 / (vh : ℚ)) (1 / (vw : ℚ), 1 / (vh : ℚ))
        dt VELOCITY_DISSIPATION vw vh i j) ∧
    ((stepAdvection false vw vh dw dh u0 vel dye dt).2.2.read i j =
      advectionShaderTexel (stepAdvection false vw vh dw dh u0 vel dye dt).2.1.read
        vw vh dye.read dw dh (1 / (vw : ℚ), 1 / (vh : ℚ)) (1 / (dw : ℚ), 1 / (dh : ℚ))
        dt DENSITY_DISSIPATION dw dh i j) ∧
    ((stepAdvection false vw vh dw dh u0 vel dye dt).2.1.write = vel.read) ∧
    ((stepAdvection false vw vh dw dh u0 vel dye dt).2.2.write = dye.read) :=
  ⟨rfl, rfl, rfl, rfl⟩

/-- C8: a splat adds `exp(-|p|^2 / radius) * force` to every velocity
texel and `exp(-|p|^2 / radius) * color` to every dye texel, where `p`
is the offset of the texel center from the splat point with its x
component scaled by the canvas aspect ratio; both passes use the same
kernel (same aspect ratio, point and corrected radius — the dye blit
reuses the uniforms bound by the velocity blit); each of the two double
buffers is swapped exactly once (its new write half is its old read
half); and the equations hold for every real position, so no input is
rejected.  The last conjunct expands the kernel as the exponential of
the claim. -/
theorem splat_spec (cw ch vw vh dw dh : ℕ) (st : FluidFields) (x y dx dy : ℝ)
    (color : ℝ × ℝ × ℝ) (i j : ℕ) :
    ((splat cw ch vw vh dw dh st x y dx dy color).velocity.read i j =
      ((st.velocity.read i j).1 +
          splatKernel ((cw : ℝ) / (ch : ℝ))
            (correctRadius ((cw : ℝ) / (ch : ℝ)) (((SPLAT_RADIUS : ℚ) : ℝ) / 100))
            x y (vUvR vw i) (vUvR vh j) * (dx * ((SPLAT_FORCE : ℚ) : ℝ)),
        (st.velocity.read i j).2 +
          splatKernel ((cw : ℝ) / (ch : ℝ))
            (correctRadius ((cw : ℝ) / (ch : ℝ)) (((SPLAT_RADIUS : ℚ) : ℝ) / 100))
            x y (vUvR vw i) (vUvR vh j) * (dy * ((SPLAT_FORCE : ℚ) : ℝ)))) ∧
    ((splat cw ch vw vh dw dh st x y dx dy color).dye.read i j =
      ((st.dye.read i j).1 +
          splatKernel ((cw : ℝ) / (ch : ℝ))
            (correctRadius ((cw : ℝ) / (ch : ℝ)) (((SPLAT_RADIUS : ℚ) : ℝ) / 100))
            x y (vUvR dw i) (vUvR dh j) * color.1,
        (st.dye.read i j).2.1 +
          splatKernel ((cw : ℝ) / (ch : ℝ))
            (correctRadius ((cw : ℝ) / (ch : ℝ)) (((SPLAT_RADIUS : ℚ) : ℝ) / 100))
            x y (vUvR dw i) (vUvR dh j) * color.2.1,
        (st.dye.read i j).2.2 +
          splatKernel ((cw : ℝ) / (ch : ℝ))
            (correctRadius ((cw : ℝ) / (ch : ℝ)) (((SPLAT_RADIUS : ℚ) : ℝ) / 100))
            x y (vUvR dw i) (vUvR dh j) * color.2.2)) ∧
    ((splat cw ch vw vh dw dh st x y dx dy color).velocity.write = st.velocity.read) ∧
    ((splat cw ch vw vh dw dh st x y dx dy color).dye.write = st.dye.read) ∧
    (∀ u v : ℝ, splatKernel ((cw : ℝ) / (ch : ℝ))
        (correctRadius ((cw : ℝ) / (ch : ℝ)) (((SPLAT_RADIUS : ℚ) : ℝ) / 100)) x y u v =
      Real.exp (-((u - x) * ((cw : ℝ) / (ch : ℝ)) * ((u - x) * ((cw : ℝ) / (ch : ℝ))) +
          (v - y) * (v - y)) /
        correctRadius ((cw : ℝ) / (ch : ℝ)) (((SPLAT_RADIUS : ℚ) : ℝ) / 100))) :=
  ⟨rfl, rfl, rfl, rfl, fun _ _ => rfl⟩

/-- Every color drawn by `getRandomColor` is a palette entry with all
channels scaled by `0.25`. -/
theorem getRandomColor_mem_palette {t : ℚ} (h0 : 0 ≤ t) (h1 : t < 1) :
    ∃ p ∈ PALETTE, getRandomColor t = (p.1 * 0.25, p.2.1 * 0.25, p.2.2 * 0.25) := by
  have hidx : Int.toNat ⌊t * (PALETTE.length : ℚ)⌋ < 5 := by
    have hlen : ((PALETTE.length : ℕ) : ℚ) = 5 := by norm_num [PALETTE]
    rw [hlen]
    have hf : ⌊t * (5 : ℚ)⌋ < (5 : ℤ) := by
      rw [Int.floor_lt]
      push_cast
      linarith
    omega
  unfold getRandomColor
  generalize hg : Int.toNat ⌊t * (PALETTE.length : ℚ)⌋ = k
  rw [hg] at hidx
  interval_cases k <;> exact ⟨_, by simp [PALETTE], rfl⟩

/-- Channel bounds for `getRandomColor` draws: every channel lies in
`[0, 0.25]` and the green channel is strictly positive (every palette
entry has a positive green component). -/
theorem getRandomColor_bounds {t : ℚ} (h0 : 0 ≤ t) (h1 : t < 1) :
    (0 ≤ (getRandomColor t).1 ∧ (getRandomColor t).1 ≤ 0.25) ∧
    (0 < (getRandomColor t).2.1 ∧ (getRandomColor t).2.1 ≤ 0.25) ∧
    (0 ≤ (getRandomColor t).2.2 ∧ (getRandomColor t).2.2 ≤ 0.25) := by
  have hidx : Int.toNat ⌊t * (PALETTE.length : ℚ)⌋ < 5 := by
    have hlen : ((PALETTE.length : ℕ) : ℚ) = 5 := by norm_num [PALETTE]
    rw [hlen]
    have hf : ⌊t * (5 : ℚ)⌋ < (5 : ℤ) := by
      rw [Int.floor_lt]
      push_cast
      linarith
    omega
  unfold getRandomColor
  generalize hg : Int.toNat ⌊t * (PALETTE.length : ℚ)⌋ = k
  rw [hg] at hidx
  interval_cases k <;> norm_num [PALETTE]

/-- The dye green channel after a splat: the old value plus the kernel
weight times the color's green component. -/
theorem splat_dye_green_eq (cw ch vw vh dw dh : ℕ) (st : FluidFields) (x y dx dy : ℝ)
    (color : ℝ × ℝ × ℝ) (i j : ℕ) :
    ((splat cw ch vw vh dw dh st x y dx dy color).dye.read i j).2.1 =
      (st.dye.read i j).2.1 +
        splatKernel ((cw : ℝ) / (ch : ℝ))
          (correctRadius ((cw : ℝ) / (ch : ℝ)) (((SPLAT_RADIUS : ℚ) : ℝ) / 100))
          x y (vUvR dw i) (vUvR dh j) * color.2.1 := rfl

/-- Folding splat calls with nonnegative green components never decreases
the dye green channel at any texel. -/
theorem foldl_splat_dye_green_mono (cw ch vw vh dw dh i j : ℕ) :
    ∀ (calls : List SplatCall) (st : FluidFields),
      (∀ c ∈ calls, 0 ≤ c.color.2.1) →
      (st.dye.read i j).2.1 ≤
        ((calls.foldl
          (fun s c => splat cw ch vw vh dw dh s (c.x : ℝ) (c.y : ℝ) (c.dx : ℝ) (c.dy : ℝ)
            ((c.color.1 : ℝ), (c.color.2.1 : ℝ), (c.color.2.2 : ℝ))) st).dye.read i j).2.1 := by
  intro calls
  induction calls with
  | nil =>
    intro st _
    exact le_refl _
  | cons c rest ih =>
    intro st hc
    rw [List.foldl_cons]
    refine le_trans ?_ (ih _ fun d hd => hc d (List.mem_cons_of_mem _ hd))
    rw [splat_dye_green_eq]
    have h0 : (0 : ℝ) ≤ ((c.color.2.1 : ℚ) : ℝ) := by
      exact_mod_cast hc c (List.mem_cons_self _ _)
    exact le_add_of_nonneg_right (mul_nonneg (Real.exp_pos _).le h0)

/-- C10: the startup block performs exactly four splat calls; each call
has both position coordinates in `[0, 1]`, both force components of
magnitude at most `0.0005` (before `SPLAT_FORCE` scaling), and a color
that is a fixed-palette entry scaled by `0.25`, hence with every channel
in `[0, 0.25]`; and after running the four calls on zero fields every
dye texel has a strictly positive green channel, so the first displayed
frame does not start from entirely zero fields. -/
theorem initial_splats_spec (rand : ℕ → ℚ) (hr : ∀ n, 0 ≤ rand n ∧ rand n < 1) :
    ((initialSplatCalls rand).length = 4) ∧
    (∀ c ∈ initialSplatCalls rand,
      (0 ≤ c.x ∧ c.x ≤ 1) ∧ (0 ≤ c.y ∧ c.y ≤ 1) ∧
      |c.dx| ≤ 0.0005 ∧ |c.dy| ≤ 0.0005 ∧
      (∃ p ∈ PALETTE, c.color = (p.1 * 0.25, p.2.1 * 0.25, p.2.2 * 0.25)) ∧
      (0 ≤ c.color.1 ∧ c.color.1 ≤ 0.25) ∧
      (0 ≤ c.color.2.1 ∧ c.color.2.1 ≤ 0.25) ∧
      (0 ≤ c.color.2.2 ∧ c.color.2.2 ≤ 0.25)) ∧
    (∀ cw ch vw vh dw dh i j : ℕ,
      0 < ((runInitialSplats cw ch vw vh dw dh rand zeroFields).dye.read i j).2.1) := by
  have habs : ∀ r : ℚ, 0 ≤ r → r < 1 → |(r - 0.5) * 0.001| ≤ 0.0005 := by
    intro r h0 h1
    rw [abs_mul]
    have h2 : |r - 0.5| ≤ 0.5 := abs_le.mpr ⟨by linarith, by linarith⟩
    have h3 : |(0.001 : ℚ)| = 0.001 := by norm_num
    rw [h3]
    nlinarith
  refine ⟨by simp [initialSplatCalls], ?_, ?_⟩
  · intro c hc
    simp only [initialSplatCalls, List.mem_map, List.mem_range] at hc
    obtain ⟨k, _, rfl⟩ := hc
    obtain ⟨hx0, hx1⟩ := hr (5 * k + 1)
    obtain ⟨hy0, hy1⟩ := hr (5 * k + 2)
    obtain ⟨hd0, hd1⟩ := hr (5 * k + 3)
    obtain ⟨he0, he1⟩ := hr (5 * k + 4)
    obtain ⟨hc0, hc1⟩ := hr (5 * k)
    obtain ⟨hb1, hb2, hb3⟩ := getRandomColor_bounds hc0 hc1
    exact ⟨⟨hx0, le_of_lt hx1⟩, ⟨hy0, le_of_lt hy1⟩, habs _ hd0 hd1, habs _ he0 he1,
      getRandomColor_mem_palette hc0 hc1, hb1, ⟨le_of_lt hb2.1, hb2.2⟩, hb3⟩
  · intro cw ch vw vh dw dh i j
    have hsplit : initialSplatCalls rand =
        ⟨getRandomColor (rand 0), rand 1, rand 2,
          (rand 3 - 0.5) * 0.001, (rand 4 - 0.5) * 0.001⟩ ::
        [⟨getRandomColor (rand 5), rand 6, rand 7,
            (rand 8 - 0.5) * 0.001, (rand 9 - 0.5) * 0.001⟩,
          ⟨getRandomColor (rand 10), rand 11, rand 12,
            (rand 13 - 0.5) * 0.001, (rand 14 - 0.5) * 0.001⟩,
          ⟨getRandomColor (rand 15), rand 16, rand 17,
            (rand 18 - 0.5) * 0.001, (rand 19 - 0.5) * 0.001⟩] := rfl
    unfold runInitialSplats
    rw [hsplit, List.foldl_cons]
    refine lt_of_lt_of_le ?_
      (foldl_splat_dye_green_mono cw ch vw vh dw dh i j _ _ ?_)
    · rw [splat_dye_green_eq]
      have hz : ((zeroFields.dye.read i j).2.1 : ℝ) = 0 := rfl
      rw [hz, zero_add]
      refine mul_pos (Real.exp_pos _) ?_
      show (0 : ℝ) < ((getRandomColor (rand 0)).2.1 : ℝ)
      have := (getRandomColor_bounds (hr 0).1 (hr 0).2).2.1.1
      exact_mod_cast this
    · intro d hd
      have hgreen : ∀ m : ℕ, 0 ≤ (getRandomColor (rand m)).2.1 := fun m =>
        le_of_lt (getRandomColor_bounds (hr m).1 (hr m).2).2.1.1
      simp only [List.mem_cons, List.not_mem_nil, or_false] at hd
      rcases hd with rfl | rfl | rfl
      · exact hgreen 5
      · exact hgreen 10
      · exact hgreen 15

/-- Witness for C10 at the constant stream `1/2`: four calls, all bounds
hold, and the dye green channel at texel `(0,0)` ends strictly positive. -/
theorem initial_splats_spec_witness :
    ((initialSplatCalls (fun _ => 1/2)).length = 4) ∧
    (0 < ((runInitialSplats 100 100 128 128 1024 1024 (fun _ => 1/2)
      zeroFields).dye.read 0 0).2.1) :=
  ⟨(initial_splats_spec (fun _ => 1/2) (fun _ => by norm_num)).1,
    (initial_splats_spec (fun _ => 1/2) (fun _ => by norm_num)).2.2
      100 100 128 128 1024 1024 0 0⟩

end Fluid
